import Mathlib

/-!
# Shallow embedding of the QC_TOOL browser client

This file embeds, in Lean 4, the configuration-and-results orchestration
logic of the QC tool client (`src/static/js/app.js`, second revision of the
`QCRules` module, and the `Results` module in `src/unnamed/part_003`), and
proves properties of that embedding.

JavaScript values that matter to the embedded code paths are modelled by
`JSVal`; DOM elements that the code reads with optional chaining are
modelled by `Option` (with `none` meaning the element is absent); JS object
rows are modelled as ordered association lists.
-/

/-- A JavaScript scalar value as it appears in result rows and statistics. -/
inductive JSVal where
  | vNull : JSVal
  | vBool : Bool → JSVal
  | vNum : Int → JSVal
  | vStr : String → JSVal
deriving DecidableEq, Repr

/-- `String(val)` on the scalar values we model. -/
def jsValToString : JSVal → String
  | .vNull => "null"
  | .vBool b => if b then "true" else "false"
  | .vNum n => toString n
  | .vStr s => s

/-- A row object: ordered mapping from column name to value. -/
abbrev Row := List (String × JSVal)

/-- `row[c]`: property access on a row object (`none` = `undefined`). -/
def rowGet (row : Row) (c : String) : Option JSVal :=
  row.lookup c

/-- One loaded dataset, as held in `App.state.sessions`. -/
structure Session where
  session_id : String
  source : String := ""
  row_count : Nat := 0
  columns : List String := []
deriving DecidableEq, Repr

/-! ## Compare-view enablement (`App.updateCompareView`, app.js line 83)

The compare view renders one checkbox per loaded source
(`.compare-source-checkbox`); we model the view state as the loaded
session list together with the set of checked source ids.  The source
contains no `change` listener for `.compare-source-checkbox`, so the
button's `disabled` property is exactly what `updateCompareView` last
wrote: `this.state.sessions.length < 2`. -/

structure CompareViewState where
  sessions : List Session
  checkedIds : List String
deriving DecidableEq, Repr

/-- `runCompareBtn.disabled` as set by `App.updateCompareView`:
`this.state.sessions.length < 2` (app.js line 83). -/
def runCompareBtnDisabled (st : CompareViewState) : Bool :=
  st.sessions.length < 2

/-- Unchecking one source's checkbox.  No event handler in the source is
attached to these checkboxes, so only `checkedIds` changes. -/
def uncheckSource (st : CompareViewState) (id : String) : CompareViewState :=
  { st with checkedIds := st.checkedIds.filter (fun i => i ≠ id) }

/-! ## Common columns (`QCRules.updateFormulaKeyColumns`, app.js 1108–1129) -/

/-- `session1.columns.filter(c => session2.columns.includes(c))`. -/
def commonColumns (cols1 cols2 : List String) : List String :=
  cols1.filter (fun c => cols2.contains c)

/-! ## CSV export (`Results.exportSection`, part_003 lines 267–303) -/

/-- `str.replace(/"/g, '""')`. -/
def dupQuotes (s : String) : String :=
  String.mk (s.toList.foldr (fun c acc => if c = '"' then '"' :: '"' :: acc else c :: acc) [])

/-- `str.includes(c)` for a single character: membership in the
character sequence. -/
def strContainsChar (s : String) (c : Char) : Bool :=
  s.toList.contains c

/-- Whether `escapeCSV` quotes: `str.includes(',') || str.includes('"') ||
str.includes('\n')`. -/
def needsQuote (s : String) : Bool :=
  strContainsChar s ',' || strContainsChar s '"' || strContainsChar s '\n'

/-- `escapeCSV` from `Results.exportSection` (part_003 lines 277–285).
`none` models `undefined`. -/
def escapeCSV (v : Option JSVal) : String :=
  match v with
  | none => ""
  | some .vNull => ""
  | some v =>
    let str := jsValToString v
    if needsQuote str then "\"" ++ dupQuotes str ++ "\"" else str

/-- One serialized data record (`columns.map(c => escapeCSV(row[c])).join(',') + '\n'`). -/
def csvRowLine (columns : List String) (row : Row) : String :=
  String.intercalate "," (columns.map (fun c => escapeCSV (rowGet row c))) ++ "\n"

/-- The header line (`columns.map(escapeCSV).join(',') + '\n'`). -/
def csvHeaderLine (columns : List String) : String :=
  String.intercalate "," (columns.map (fun c => escapeCSV (some (.vStr c)))) ++ "\n"

/-- The CSV accumulation loop of `Results.exportSection` (lines 286–289):
starts from the header line and appends one record per held row. -/
def buildSectionCSV (columns : List String) (rows : List Row) : String :=
  rows.foldl (fun csv row => csv ++ csvRowLine columns row) (csvHeaderLine columns)

/-- The stored per-section display state (`Results._resultData[resultIdx]`,
part_003 lines 120–127). -/
structure SectionData where
  rows : List Row
  columns : List String
  initialShow : Nat
  expanded : Bool
deriving DecidableEq, Repr

/-- `Results.exportSection` (part_003 lines 267–303): `none` = the
no-data toast path, `some csv` = the downloaded file content. -/
def exportSection (data : Option SectionData) : Option String :=
  match data with
  | none => none
  | some d => if d.rows.length = 0 then none else some (buildSectionCSV d.columns d.rows)

/-! ## Failed-row table display and toggle (part_003 lines 73–128, 229–251) -/

/-- The table state: stored section data plus the rows currently rendered
in the tbody. -/
structure TableState where
  data : SectionData
  displayed : List Row
deriving DecidableEq, Repr

/-- Initial render of a failed-row table in `Results.renderDetails`
(lines 73–128): tbody gets `result.failed_rows.slice(0, initialShow)` with
`initialShow = 20`, and stored data has `expanded: false`. -/
def initialTable (rows : List Row) (columns : List String) : TableState :=
  { data := { rows := rows, columns := columns, initialShow := 20, expanded := false }
    displayed := rows.take 20 }

/-- `Results.toggleShowAll` (lines 229–251): when collapsed, render all
rows and set `expanded`; when expanded, render the first `initialShow`
rows and clear `expanded`. -/
def toggleShowAll (st : TableState) : TableState :=
  if !st.data.expanded then
    { data := { st.data with expanded := true }, displayed := st.data.rows }
  else
    { data := { st.data with expanded := false }, displayed := st.data.rows.take st.data.initialShow }

/-! ## Comparison run (`QCRules.runComparison`, app.js 865–1033)

DOM reads use optional chaining with JS defaulting:
`x?.value || d` falls back on an absent element *and* on an empty/falsy
value, while `x?.checked ?? true` falls back only on an absent element.
Numeric reads (`parseFloat(...) || d`) are modelled with the parsed value
as `Option Int` (`none` = absent element or unparsable text), falling back
also on `0`, which is falsy in JS. -/

/-- `x?.value || d` for a string-valued element. -/
def jsOrStr (v : Option String) (d : String) : String :=
  match v with
  | none => d
  | some s => if s = "" then d else s

/-- `parseFloat(x?.value) || d`. -/
def jsOrNum (v : Option Int) (d : Int) : Int :=
  match v with
  | none => d
  | some x => if x = 0 then d else x

/-- `x?.checked || false`. -/
def checkedOrFalse (v : Option Bool) : Bool :=
  match v with
  | none => false
  | some b => b

/-- `x?.checked ?? true`. -/
def checkedOrTrue (v : Option Bool) : Bool :=
  match v with
  | none => true
  | some b => b

/-- One column-mapping row (from `App.getColumnMappings()`): source id →
column name pairs. -/
abbrev ColumnMapping := List (String × String)

/-- One aggregation spec row (from `App.getAggregationConfigs()`). -/
structure AggSpec where
  column : String
  function : String
deriving DecidableEq, Repr

/-- The DOM state `QCRules.runComparison` reads.  Boolean checkbox
elements are `Option Bool` (`none` = element absent); select elements
whose absence the code tolerates are `Option`; the key/value multiselects
are read without `?.`, so they are plain lists of selected options. -/
structure CompareDom where
  checkedSourceIds : List String := []
  keyColumns : List String := []
  valueColumns : List String := []
  joinType : Option String := none
  toleranceVal : Option Int := none
  toleranceType : Option String := none
  dateToleranceVal : Option Int := none
  dateToleranceUnit : Option String := none
  ignoreCase : Option Bool := none
  ignoreWhitespace : Option Bool := none
  nullEqualsNull : Option Bool := none
  showDuplicates : Option Bool := none
  showUnique : Option Bool := none
  showNotMatched : Option Bool := none
  columnMappings : List ColumnMapping := []
  enableFuzzyMatch : Option Bool := none
  fuzzyThresholdVal : Option Int := none
  transformations : Option (List String) := none
  aggregationConfigs : List AggSpec := []
deriving Repr

/-- `tolerance` object of the request body (app.js 929–934). -/
structure TolerancePayload where
  numeric : Int
  numeric_type : String
  date : Int
  date_unit : String
deriving DecidableEq, Repr

/-- `options` object of the request body (app.js 935–942). -/
structure OptionsPayload where
  ignore_case : Bool
  ignore_whitespace : Bool
  null_equals_null : Bool
  fuzzy_match : Bool
  fuzzy_threshold : Int
  transformations : List String
deriving DecidableEq, Repr

/-- `analysis` object of the request body (app.js 943–947). -/
structure AnalysisPayload where
  duplicates : Bool
  unique : Bool
  not_matched : Bool
deriving DecidableEq, Repr

/-- `QCRules.getAggregationConfig()` result (app.js 1036–1048). -/
structure AggregationPayload where
  enabled : Bool
  aggregations : List AggSpec
deriving DecidableEq, Repr

/-- `{ enabled: true, aggregations: configs }` when at least one config
row exists, `null` otherwise (app.js 1036–1048). -/
def getAggregationConfig (configs : List AggSpec) : Option AggregationPayload :=
  if configs.length > 0 then some { enabled := true, aggregations := configs } else none

/-- The full JSON body POSTed to `/api/qc/compare` (app.js 923–949). -/
structure ComparePayload where
  session_ids : List String
  key_columns : List String
  value_columns : Option (List String)
  join_type : String
  column_mappings : Option (List ColumnMapping)
  tolerance : TolerancePayload
  options : OptionsPayload
  analysis : AnalysisPayload
  aggregation : Option AggregationPayload
deriving Repr

/-- Outcome of the pre-network part of `runComparison`: either a
client-side validation failure (toast, early return, no fetch) or a
dispatched request body. -/
inductive DispatchOutcome where
  | validationFailure (msg : String)
  | dispatch (p : ComparePayload)
deriving Repr

/-- The pre-network part of `QCRules.runComparison` (app.js 865–950):
validation checks and request-body assembly, in source order. -/
def runComparisonDispatch (dom : CompareDom) : DispatchOutcome :=
  if dom.checkedSourceIds.length < 2 then
    .validationFailure "Please select at least 2 sources to compare"
  else
    let keyColumns := dom.keyColumns
    let valueColumns := dom.valueColumns
    let joinType := jsOrStr dom.joinType "full"
    let tolerance := jsOrNum dom.toleranceVal 0
    let toleranceType := jsOrStr dom.toleranceType "absolute"
    let dateTolerance := jsOrNum dom.dateToleranceVal 0
    let dateToleranceUnit := jsOrStr dom.dateToleranceUnit "days"
    let ignoreCase := checkedOrFalse dom.ignoreCase
    let ignoreWhitespace := checkedOrFalse dom.ignoreWhitespace
    let nullEqualsNull := checkedOrTrue dom.nullEqualsNull
    let showDuplicates := checkedOrTrue dom.showDuplicates
    let showUnique := checkedOrTrue dom.showUnique
    let showNotMatched := checkedOrTrue dom.showNotMatched
    let columnMappings := dom.columnMappings
    let enableFuzzyMatch := checkedOrFalse dom.enableFuzzyMatch
    let fuzzyThreshold := jsOrNum dom.fuzzyThresholdVal 80
    let transformations := dom.transformations.getD []
    if keyColumns.length = 0 then
      .validationFailure "Please select at least one key column for matching"
    else
      .dispatch
        { session_ids := dom.checkedSourceIds
          key_columns := keyColumns
          value_columns := if valueColumns.length > 0 then some valueColumns else none
          join_type := joinType
          column_mappings := if columnMappings.length > 0 then some columnMappings else none
          tolerance :=
            { numeric := tolerance, numeric_type := toleranceType
              date := dateTolerance, date_unit := dateToleranceUnit }
          options :=
            { ignore_case := ignoreCase, ignore_whitespace := ignoreWhitespace
              null_equals_null := nullEqualsNull, fuzzy_match := enableFuzzyMatch
              fuzzy_threshold := fuzzyThreshold, transformations := transformations }
          analysis :=
            { duplicates := showDuplicates, unique := showUnique
              not_matched := showNotMatched }
          aggregation := getAggregationConfig dom.aggregationConfigs }

/-! ## Backend comparison response and result synthesis (app.js 952–1025) -/

/-- `data.duplicates` / one entry of `data.unique`: a backend-reported
count plus an optional row list (`rows?`). -/
structure RowsInfo where
  count : Int
  rows : Option (List Row) := none
deriving DecidableEq, Repr

/-- `data.not_matched`: count, optional rows, and `column_differences`. -/
structure NotMatchedInfo where
  count : Int
  rows : Option (List Row) := none
  column_differences : List Row := []
deriving DecidableEq, Repr

/-- `data.aggregation`. -/
structure AggData where
  function : String
  column : String
  variances : Option (List Row) := none
  total_groups : Int := 0
  results : List Row := []
deriving DecidableEq, Repr

/-- The decoded `/api/qc/compare` response body on the success path. -/
structure CompareResponse where
  result_id : String
  duplicates : Option RowsInfo := none
  unique : Option (List (String × RowsInfo)) := none
  not_matched : Option NotMatchedInfo := none
  aggregation : Option AggData := none
deriving Repr

/-- The detail payload a synthesized result may carry. -/
inductive DetailVal where
  | records : List Row → DetailVal
deriving DecidableEq, Repr

/-- A synthesized display Result, as pushed into `results` (app.js 958–1023). -/
structure ResultR where
  rule_name : String
  passed : Bool
  message : String
  statistics : List (String × JSVal) := []
  details : Option DetailVal := none
  failed_rows : Option (List Row) := none
  failed_row_count : Option Int := none
deriving DecidableEq, Repr

/-- The duplicates result (app.js 961–970): note
`failed_rows: data.duplicates.rows?.slice(0, 100)` and
`failed_row_count: data.duplicates.count`. -/
def mkDuplicatesResult (d : RowsInfo) : ResultR :=
  { rule_name := "🔄 Duplicates (In Multiple Sources)"
    passed := d.count = 0
    message := "Found " ++ toString d.count ++ " duplicate rows across sources"
    statistics := [("duplicate_count", .vNum d.count)]
    failed_rows := d.rows.map (fun rs => rs.take 100)
    failed_row_count := some d.count }

/-- One per-source unique result (app.js 973–982). -/
def mkUniqueResult (source : String) (info : RowsInfo) : ResultR :=
  { rule_name := "🔹 Unique to: " ++ source
    passed := true
    message := toString info.count ++ " rows only in this source"
    statistics := [("unique_count", .vNum info.count)]
    failed_rows := info.rows.map (fun rs => rs.take 100)
    failed_row_count := some info.count }

/-- The value-differences result (app.js 985–995). -/
def mkNotMatchedResult (nm : NotMatchedInfo) : ResultR :=
  { rule_name := "❌ Value Differences"
    passed := nm.count = 0
    message := "Found " ++ toString nm.count ++ " rows with value differences"
    statistics := [("difference_count", .vNum nm.count)]
    details := some (.records nm.column_differences)
    failed_rows := nm.rows.map (fun rs => rs.take 100)
    failed_row_count := some nm.count }

/-- The aggregation result (app.js 998–1014): `failed_rows: agg.variances`
(no slice) and no `failed_row_count`. -/
def mkAggregationResult (agg : AggData) : ResultR :=
  let varianceLen := (agg.variances.getD []).length
  let hasVariance := match agg.variances with
    | some vs => vs.length > 0
    | none => false
  { rule_name := "📊 Aggregation: " ++ agg.function.toUpper ++ "(" ++ agg.column ++ ")"
    passed := !hasVariance
    message :=
      if hasVariance then toString varianceLen ++ " groups exceed variance threshold"
      else "All " ++ toString agg.total_groups ++ " groups within tolerance"
    statistics :=
      [("total_groups", .vNum agg.total_groups), ("variance_count", .vNum (Int.ofNat varianceLen))]
    details := some (.records agg.results)
    failed_rows := agg.variances
    failed_row_count := none }

/-- The placeholder result pushed when no analysis produced output
(app.js 1016–1023). -/
def placeholderResult : ResultR :=
  { rule_name := "Comparison Results"
    passed := true
    message := "No analysis options selected"
    statistics := [] }

/-- The response-decomposition loop of `runComparison` (app.js 958–1023):
pushes the duplicates result, one result per `data.unique` entry, the
value-differences result, the aggregation result, then the placeholder if
nothing was pushed.  `showDuplicates`/`showUnique`/`showNotMatched` are
the analysis toggles gathered earlier in the function. -/
def formatCompareResults (showDuplicates showUnique showNotMatched : Bool)
    (data : CompareResponse) : List ResultR :=
  let r1 : List ResultR := match data.duplicates, showDuplicates with
    | some d, true => [mkDuplicatesResult d]
    | _, _ => []
  let r2 := match data.unique, showUnique with
    | some u, true => u.map (fun e => mkUniqueResult e.1 e.2)
    | _, _ => []
  let r3 := match data.not_matched, showNotMatched with
    | some nm, true => [mkNotMatchedResult nm]
    | _, _ => []
  let r4 := match data.aggregation with
    | some agg => [mkAggregationResult agg]
    | none => []
  let results := r1 ++ r2 ++ r3 ++ r4
  if results.length = 0 then [placeholderResult] else results

/-- The result-holding slice of `App.state` (`qcResults`, `resultId`). -/
structure AppResultState where
  qcResults : Option (List ResultR) := none
  resultId : Option String := none

/-- `App.setResults(results, resultId)` (app.js 195–200): atomically
replaces both fields. -/
def setResults (results : List ResultR) (resultId : String)
    (_st : AppResultState) : AppResultState :=
  { qcResults := some results, resultId := some resultId }

/-- One whole `runComparison` interaction on the success path: if
validation fails, no request is issued (`none`) and the state is
untouched; otherwise the payload is dispatched and the decoded response
is decomposed and stored via `App.setResults`. -/
def runComparisonStep (dom : CompareDom) (resp : CompareResponse)
    (st : AppResultState) : AppResultState × Option ComparePayload :=
  match runComparisonDispatch dom with
  | .validationFailure _ => (st, none)
  | .dispatch p =>
    (setResults
      (formatCompareResults p.analysis.duplicates p.analysis.unique p.analysis.not_matched resp)
      resp.result_id st, some p)

/-! ## Rule configuration modal (`QCRules.addRuleFromModal`, app.js 718–760) -/

/-- A gathered configuration value. -/
inductive ConfigVal where
  | b : Bool → ConfigVal
  | n : Int → ConfigVal
  | s : String → ConfigVal
  | arr : List String → ConfigVal
deriving DecidableEq, Repr

/-- JS truthiness of a gathered configuration value (`!config[field]`):
`false`, `0` and `""` are falsy; arrays are always truthy. -/
def ConfigVal.truthy : ConfigVal → Bool
  | .b v => v
  | .n x => x != 0
  | .s v => v != ""
  | .arr _ => true

/-- The gathered `config` object: ordered name → value mapping. -/
abbrev Config := List (String × ConfigVal)

/-- A form input element `config_${key}`, as the gathering loop
distinguishes them (app.js 726–740). -/
inductive InputEl where
  | checkbox : Bool → InputEl
  | multiSelect : List String → InputEl
  | numberInput : Option Int → InputEl
  | textInput : String → InputEl
deriving DecidableEq, Repr

/-- The modal's DOM: key → input element (`none` = no such element). -/
abbrev ModalDom := List (String × InputEl)

/-- What one loop iteration of app.js 726–740 stores for `key` (`none` =
nothing stored): checkbox → `checked`; multi-select → selected values;
number → parsed float, skipped if `NaN`; text → value, skipped if empty. -/
def gatherOne (dom : ModalDom) (key : String) : Option ConfigVal :=
  match dom.lookup key with
  | none => none
  | some (.checkbox c) => some (.b c)
  | some (.multiSelect sel) => some (.arr sel)
  | some (.numberInput p) => p.map ConfigVal.n
  | some (.textInput v) => if v = "" then none else some (.s v)

/-- The whole gathering loop over the schema's property keys. -/
def gatherConfig (schemaKeys : List String) (dom : ModalDom) : Config :=
  schemaKeys.filterMap (fun k => (gatherOne dom k).map (fun v => (k, v)))

/-- The per-field failure test of app.js 745:
`!config[field] || (Array.isArray(config[field]) && config[field].length === 0)`. -/
def requiredFieldMissing (config : Config) (field : String) : Bool :=
  match config.lookup field with
  | none => true
  | some v => !v.truthy || (match v with | .arr xs => xs.length = 0 | _ => false)

/-- The validation loop of app.js 742–749: the first required field that
fails, if any. -/
def findMissingRequired (required : List String) (config : Config) : Option String :=
  required.find? (fun f => requiredFieldMissing config f)

/-- A rule schema as `addRuleFromModal` consumes it: the ordered property
keys of `config_schema.properties` and the `config_schema.required` list. -/
structure RuleSchema where
  id : String
  name : String
  propertyKeys : List String
  required : List String := []
deriving DecidableEq, Repr

/-- One entry of `QCRules.activeRules`. -/
structure ActiveRule where
  rule_id : String
  rule_name : String
  config : Config
deriving DecidableEq, Repr

/-- `QCRules.addRuleFromModal` (app.js 718–760): gather, validate, and
either toast (`some message`, list unchanged) or push the configured rule. -/
def addRuleFromModal (rule : RuleSchema) (dom : ModalDom)
    (activeRules : List ActiveRule) : List ActiveRule × Option String :=
  let config := gatherConfig rule.propertyKeys dom
  match findMissingRequired rule.required config with
  | some f => (activeRules, some (f ++ " is required"))
  | none =>
    (activeRules ++ [{ rule_id := rule.id, rule_name := rule.name, config := config }], none)

/-! ## Theorems -/

/-- `Modelled from the spec:` the spec's "serializes every held row" —
an explicit one-record-per-row serialization, to be compared with the
source's accumulation loop `buildSectionCSV`. -/
def specSerializeAllRows (columns : List String) : List Row → String
  | [] => ""
  | r :: rs => csvRowLine columns r ++ specSerializeAllRows columns rs

theorem foldl_append_csv (columns : List String) :
    ∀ (rows : List Row) (init : String),
      rows.foldl (fun csv row => csv ++ csvRowLine columns row) init =
        init ++ specSerializeAllRows columns rows := by
  intro rows
  induction rows with
  | nil => intro init; simp [specSerializeAllRows, String.append_empty]
  | cons r rs ih =>
    intro init
    simp only [List.foldl, specSerializeAllRows]
    rw [ih, String.append_assoc]

theorem length_dupQuotes_ge (s : String) : s.length ≤ (dupQuotes s).length := by
  show s.toList.length ≤ (dupQuotes s).length
  unfold dupQuotes
  generalize s.toList = l
  show l.length ≤ (String.mk (l.foldr _ [])).length
  induction l with
  | nil => simp
  | cons c cs ih =>
    simp only [List.foldr, List.length_cons]
    by_cases hc : c = '"'
    · simp only [hc, if_pos rfl]
      simp only [String.length] at ih ⊢
      simp at ih ⊢
      omega
    · simp only [if_neg hc]
      simp only [String.length] at ih ⊢
      simp at ih ⊢
      omega

theorem escapeCSV_vStr (s : String) :
    escapeCSV (some (.vStr s)) =
      if needsQuote s then "\"" ++ dupQuotes s ++ "\"" else s := rfl

theorem escapeCSV_eq_self_iff (s : String) :
    escapeCSV (some (.vStr s)) = s ↔ needsQuote s = false := by
  constructor
  · intro h
    by_contra hq
    rw [Bool.not_eq_false] at hq
    rw [escapeCSV_vStr, hq, if_pos rfl] at h
    have hlen : ("\"" ++ dupQuotes s ++ "\"").length = s.length := by rw [h]
    have h2 := length_dupQuotes_ge s
    have hone : ("\"" : String).length = 1 := rfl
    rw [String.length_append, String.length_append, hone] at hlen
    omega
  · intro h
    rw [escapeCSV_vStr, h]
    simp

/-- C5: the client-side section export serializes every held row (the
accumulation loop equals header plus one record per row), quotes a string
field exactly when it contains a comma, a double quote, or a newline, and
on rows `[{a:"x,y", b:1}]` yields header `a,b` and data line `"x,y",1`
with the integer unquoted. -/
theorem exportSection_serializes_all_rows_and_quotes :
    buildSectionCSV ["a", "b"] [[("a", .vStr "x,y"), ("b", .vNum 1)]] =
      "a,b\n" ++ "\"x,y\",1\n" ∧
    (∀ (columns : List String) (rows : List Row),
      buildSectionCSV columns rows =
        csvHeaderLine columns ++ specSerializeAllRows columns rows) ∧
    (∀ s : String, escapeCSV (some (.vStr s)) = s ↔ needsQuote s = false) := by
  refine ⟨?_, ?_, escapeCSV_eq_self_iff⟩
  · decide
  · intro columns rows
    exact foldl_append_csv columns rows (csvHeaderLine columns)

/-- C8: for column sets `{a,b,c}` and `{b,c,d}` the computed common
column list is exactly `[b, c]`, and as a set the computation is
independent of which source comes first. -/
theorem commonColumns_correct :
    commonColumns ["a", "b", "c"] ["b", "c", "d"] = ["b", "c"] ∧
    (∀ (c1 c2 : List String) (x : String),
      (x ∈ commonColumns c1 c2 ↔ x ∈ c1 ∧ x ∈ c2) ∧
      (x ∈ commonColumns c1 c2 ↔ x ∈ commonColumns c2 c1)) := by
  refine ⟨by decide, ?_⟩
  intro c1 c2 x
  have h : ∀ (d1 d2 : List String), x ∈ commonColumns d1 d2 ↔ x ∈ d1 ∧ x ∈ d2 := by
    intro d1 d2
    simp [commonColumns, List.mem_filter]
  refine ⟨h c1 c2, ?_⟩
  rw [h c1 c2, h c2 c1]
  tauto

/-- A reachable compare-view state: two sources loaded, only one checked. -/
def twoLoadedOneChecked : CompareViewState :=
  { sessions := [{ session_id := "s1" }, { session_id := "s2" }]
    checkedIds := ["s1"] }

/-- C1 counterexample: with two sources loaded but only one checked, the
run control is enabled (`disabled = false`) although fewer than 2 sources
are checked, so "disabled exactly when fewer than 2 sources are checked"
fails. -/
theorem runCompareBtn_checked_iff_counterexample :
    ¬ (runCompareBtnDisabled twoLoadedOneChecked = true ↔
        twoLoadedOneChecked.checkedIds.length < 2) := by
  decide

/-- C1 amended: the run control is disabled exactly when fewer than 2
sources are *loaded*; the checked-source set does not influence it, and
unchecking a checkbox leaves it unchanged (the ≥2-checked requirement is
only enforced at submission time). -/
theorem runCompareBtn_disabled_iff_loaded :
    ∀ st : CompareViewState,
      (runCompareBtnDisabled st = true ↔ st.sessions.length < 2) ∧
      (∀ checked : List String,
        runCompareBtnDisabled { st with checkedIds := checked } = runCompareBtnDisabled st) ∧
      (∀ id : String, runCompareBtnDisabled (uncheckSource st id) = runCompareBtnDisabled st) := by
  intro st
  refine ⟨?_, fun _ => rfl, fun _ => rfl⟩
  simp [runCompareBtnDisabled]

/-- C6: on a failed-row table with more than 20 rows, the initial render
shows exactly the first 20 rows, toggling show-all renders all rows, and
toggling again restores the initial display state exactly. -/
theorem toggleShowAll_round_trip :
    ∀ (rows : List Row) (columns : List String),
      20 < rows.length →
      (initialTable rows columns).displayed = rows.take 20 ∧
      (initialTable rows columns).displayed.length = 20 ∧
      (toggleShowAll (initialTable rows columns)).displayed = rows ∧
      toggleShowAll (toggleShowAll (initialTable rows columns)) = initialTable rows columns := by
  intro rows columns h
  refine ⟨rfl, ?_, rfl, rfl⟩
  simp [initialTable, List.length_take]
  omega

/-- C6 witness: a 37-row table round-trips through the toggle. -/
theorem toggleShowAll_round_trip_witness :
    20 < (List.replicate 37 ([] : Row)).length ∧
    ((initialTable (List.replicate 37 ([] : Row)) ["a"]).displayed =
        (List.replicate 37 ([] : Row)).take 20 ∧
      (initialTable (List.replicate 37 ([] : Row)) ["a"]).displayed.length = 20 ∧
      (toggleShowAll (initialTable (List.replicate 37 ([] : Row)) ["a"])).displayed =
        List.replicate 37 ([] : Row) ∧
      toggleShowAll (toggleShowAll (initialTable (List.replicate 37 ([] : Row)) ["a"])) =
        initialTable (List.replicate 37 ([] : Row)) ["a"]) :=
  ⟨by decide, toggleShowAll_round_trip (List.replicate 37 ([] : Row)) ["a"] (by decide)⟩

/-- Whether the pre-network phase ended in a client-side validation
failure. -/
def DispatchOutcome.isFailure : DispatchOutcome → Bool
  | .validationFailure _ => true
  | .dispatch _ => false

/-- C2: a comparison submission with fewer than 2 checked sources or no
selected key columns is a validation failure: no request body is produced
and `qcResults`/`resultId` are untouched. -/
theorem runComparison_validation_blocks :
    ∀ (dom : CompareDom) (resp : CompareResponse) (st : AppResultState),
      dom.checkedSourceIds.length < 2 ∨ dom.keyColumns = [] →
      (runComparisonDispatch dom).isFailure = true ∧
      runComparisonStep dom resp st = (st, none) := by
  intro dom resp st h
  have hfail : (runComparisonDispatch dom).isFailure = true := by
    by_cases h2 : dom.checkedSourceIds.length < 2
    · simp [runComparisonDispatch, h2, DispatchOutcome.isFailure]
    · rcases h with h | h
      · exact absurd h h2
      · simp [runComparisonDispatch, h2, h, DispatchOutcome.isFailure]
  refine ⟨hfail, ?_⟩
  unfold runComparisonStep
  rcases hd : runComparisonDispatch dom with msg | p
  · rfl
  · rw [hd] at hfail
    simp [DispatchOutcome.isFailure] at hfail

/-- C2 witness: with one checked source nothing is dispatched and the
result state is unchanged. -/
theorem runComparison_validation_blocks_witness :
    (({ checkedSourceIds := ["s1"] } : CompareDom).checkedSourceIds.length < 2 ∨
      ({ checkedSourceIds := ["s1"] } : CompareDom).keyColumns = []) ∧
    ((runComparisonDispatch { checkedSourceIds := ["s1"] }).isFailure = true ∧
      runComparisonStep { checkedSourceIds := ["s1"] } { result_id := "r" } {} = ({}, none)) :=
  ⟨Or.inl (by decide),
    runComparison_validation_blocks { checkedSourceIds := ["s1"] } { result_id := "r" } {}
      (Or.inl (by decide))⟩

/-- A successful comparison response in which three sources each own
unique rows, with all other facets present. -/
def threeUniqueResponse : CompareResponse :=
  { result_id := "r"
    duplicates := some { count := 1 }
    unique := some [("s1", { count := 1 }), ("s2", { count := 1 }), ("s3", { count := 1 })]
    not_matched := some { count := 1 }
    aggregation := some { function := "sum", column := "amt" } }

/-- C3 counterexample: with three uniquely-owning sources and every facet
present, the synthesized list has 6 entries, so "at most four entries"
fails. -/
theorem formatCompareResults_four_bound_counterexample :
    ¬ ((formatCompareResults true true true threeUniqueResponse).length ≤ 4) := by
  decide

/-- C3 amended: the synthesized list holds at most one duplicates entry,
one entry per source in the response's `unique` map, one value-mismatch
entry and one aggregation entry — at most 3 plus the number of
uniquely-owning sources (so at most four only when at most one source
owns unique rows). -/
theorem formatCompareResults_length_bound :
    ∀ (sd su snm : Bool) (data : CompareResponse),
      (formatCompareResults sd su snm data).length ≤
        3 + (match data.unique with | some u => u.length | none => 0) := by
  intro sd su snm data
  rcases data with ⟨rid, dup, uniq, nm, agg⟩
  simp only [formatCompareResults]
  rcases dup with _ | d <;> rcases uniq with _ | u <;> rcases nm with _ | x <;>
    rcases agg with _ | a <;> cases sd <;> cases su <;> cases snm <;>
    simp [List.length_append, List.length_map] <;> (try split) <;>
      (try simp [List.length_map]) <;> omega

theorem addRule_blocked_of_bad_field (rule : RuleSchema) (dom : ModalDom)
    (rules : List ActiveRule) (X : String) (hX : X ∈ rule.required)
    (hbad : requiredFieldMissing (gatherConfig rule.propertyKeys dom) X = true) :
    (addRuleFromModal rule dom rules).1 = rules ∧
    (addRuleFromModal rule dom rules).2.isSome = true := by
  have hfind : (findMissingRequired rule.required (gatherConfig rule.propertyKeys dom)).isSome := by
    rw [findMissingRequired, List.find?_isSome]
    exact ⟨X, hX, hbad⟩
  rcases hf : findMissingRequired rule.required (gatherConfig rule.propertyKeys dom) with _ | f
  · rw [hf] at hfind
    simp at hfind
  · simp [addRuleFromModal, hf]

/-- C4: when the schema's `required` set contains `X` and the gathered
configuration leaves `X` unset or maps it to an empty array, submission
is a validation failure (a toast) and the rule is not appended. -/
theorem required_field_validation_blocks :
    ∀ (rule : RuleSchema) (dom : ModalDom) (rules : List ActiveRule) (X : String),
      X ∈ rule.required →
      ((gatherConfig rule.propertyKeys dom).lookup X = none ∨
        (gatherConfig rule.propertyKeys dom).lookup X = some (.arr [])) →
      (addRuleFromModal rule dom rules).1 = rules ∧
      (addRuleFromModal rule dom rules).2.isSome = true := by
  intro rule dom rules X hX hbad
  apply addRule_blocked_of_bad_field rule dom rules X hX
  rcases hbad with h | h <;> simp [requiredFieldMissing, h, ConfigVal.truthy]

/-- A schema requiring a `columns` multi-select. -/
def nullCheckRule : RuleSchema :=
  { id := "null_check", name := "Null Check", propertyKeys := ["columns"], required := ["columns"] }

/-- C4 witness: submitting the `columns`-requiring schema with an empty
multi-select is rejected and adds nothing. -/
theorem required_field_validation_blocks_witness :
    ("columns" ∈ nullCheckRule.required ∧
      (gatherConfig nullCheckRule.propertyKeys
        [("columns", InputEl.multiSelect [])]).lookup "columns" = some (.arr [])) ∧
    ((addRuleFromModal nullCheckRule [("columns", InputEl.multiSelect [])] []).1 = [] ∧
      (addRuleFromModal nullCheckRule [("columns", InputEl.multiSelect [])] []).2.isSome = true) :=
  ⟨⟨by decide, by decide⟩,
    required_field_validation_blocks nullCheckRule [("columns", InputEl.multiSelect [])] []
      "columns" (by decide) (Or.inr (by decide))⟩

/-- C9: required-field validation also rejects present-but-falsy values:
a gathered boolean `false` or numeric `0` for a required property fails
validation and the rule is not appended, although a value was submitted. -/
theorem falsy_required_value_rejected :
    ∀ (rule : RuleSchema) (dom : ModalDom) (rules : List ActiveRule) (X : String),
      X ∈ rule.required →
      ((gatherConfig rule.propertyKeys dom).lookup X = some (.b false) ∨
        (gatherConfig rule.propertyKeys dom).lookup X = some (.n 0)) →
      (addRuleFromModal rule dom rules).1 = rules ∧
      (addRuleFromModal rule dom rules).2.isSome = true := by
  intro rule dom rules X hX hbad
  apply addRule_blocked_of_bad_field rule dom rules X hX
  rcases hbad with h | h <;> simp [requiredFieldMissing, h, ConfigVal.truthy]

/-- A schema requiring a numeric `min_value`. -/
def rangeCheckRule : RuleSchema :=
  { id := "range_check", name := "Range Check"
    propertyKeys := ["min_value"], required := ["min_value"] }

/-- C9 witness: a submitted numeric `0` for the required `min_value` is
gathered into the configuration yet rejected as missing. -/
theorem falsy_required_value_rejected_witness :
    ("min_value" ∈ rangeCheckRule.required ∧
      (gatherConfig rangeCheckRule.propertyKeys
        [("min_value", InputEl.numberInput (some 0))]).lookup "min_value" = some (.n 0)) ∧
    ((addRuleFromModal rangeCheckRule [("min_value", InputEl.numberInput (some 0))] []).1 = [] ∧
      (addRuleFromModal rangeCheckRule
        [("min_value", InputEl.numberInput (some 0))] []).2.isSome = true) :=
  ⟨⟨by decide, by decide⟩,
    falsy_required_value_rejected rangeCheckRule [("min_value", InputEl.numberInput (some 0))] []
      "min_value" (by decide) (Or.inr (by decide))⟩

/-- C7: when a boolean configuration field's DOM target is absent, the
dispatched payload uses the documented fallback: `null_equals_null`,
`duplicates`, `unique` and `not_matched` default to `true`; the other
boolean fields (`ignore_case`, `ignore_whitespace`, `fuzzy_match`)
default to `false`. -/
theorem missing_boolean_targets_default :
    ∀ (dom : CompareDom) (p : ComparePayload),
      dom.ignoreCase = none → dom.ignoreWhitespace = none → dom.nullEqualsNull = none →
      dom.showDuplicates = none → dom.showUnique = none → dom.showNotMatched = none →
      dom.enableFuzzyMatch = none →
      runComparisonDispatch dom = .dispatch p →
      p.options.null_equals_null = true ∧
      p.analysis.duplicates = true ∧ p.analysis.unique = true ∧
      p.analysis.not_matched = true ∧
      p.options.ignore_case = false ∧ p.options.ignore_whitespace = false ∧
      p.options.fuzzy_match = false := by
  intro dom p h1 h2 h3 h4 h5 h6 h7 hd
  simp only [runComparisonDispatch] at hd
  split at hd
  · exact absurd hd (by simp)
  · split at hd
    · exact absurd hd (by simp)
    · injection hd with hp
      subst hp
      simp [h1, h2, h3, h4, h5, h6, h7, checkedOrTrue, checkedOrFalse]

/-- A compare DOM in which every optional boolean target is absent but
validation passes. -/
def bareCompareDom : CompareDom :=
  { checkedSourceIds := ["s1", "s2"], keyColumns := ["k"] }

/-- The payload `runComparisonDispatch` assembles from `bareCompareDom`. -/
def bareComparePayload : ComparePayload :=
  { session_ids := ["s1", "s2"]
    key_columns := ["k"]
    value_columns := none
    join_type := "full"
    column_mappings := none
    tolerance := { numeric := 0, numeric_type := "absolute", date := 0, date_unit := "days" }
    options :=
      { ignore_case := false, ignore_whitespace := false, null_equals_null := true
        fuzzy_match := false, fuzzy_threshold := 80, transformations := [] }
    analysis := { duplicates := true, unique := true, not_matched := true }
    aggregation := none }

/-- C7 witness: with every boolean target absent, the dispatched payload
carries the documented defaults. -/
theorem missing_boolean_targets_default_witness :
    (bareCompareDom.ignoreCase = none ∧ bareCompareDom.nullEqualsNull = none ∧
      runComparisonDispatch bareCompareDom = .dispatch bareComparePayload) ∧
    (bareComparePayload.options.null_equals_null = true ∧
      bareComparePayload.analysis.duplicates = true ∧
      bareComparePayload.analysis.unique = true ∧
      bareComparePayload.analysis.not_matched = true ∧
      bareComparePayload.options.ignore_case = false ∧
      bareComparePayload.options.ignore_whitespace = false ∧
      bareComparePayload.options.fuzzy_match = false) :=
  ⟨⟨rfl, rfl, rfl⟩,
    missing_boolean_targets_default bareCompareDom bareComparePayload
      rfl rfl rfl rfl rfl rfl rfl rfl⟩

/-- C10: every synthesized duplicates / per-source-unique /
value-differences result carries at most the first 100 backend rows in
`failed_rows`, while `failed_row_count` is the backend's full count — so
the count can exceed the number of carried rows, as the concrete
150-row instance shows. -/
theorem synthesized_results_row_cap :
    (∀ (d : RowsInfo) (rows : List Row), d.rows = some rows →
      (mkDuplicatesResult d).failed_rows = some (rows.take 100) ∧
      (rows.take 100).length ≤ 100 ∧
      (mkDuplicatesResult d).failed_row_count = some d.count) ∧
    (∀ (src : String) (info : RowsInfo) (rows : List Row), info.rows = some rows →
      (mkUniqueResult src info).failed_rows = some (rows.take 100) ∧
      (rows.take 100).length ≤ 100 ∧
      (mkUniqueResult src info).failed_row_count = some info.count) ∧
    (∀ (nm : NotMatchedInfo) (rows : List Row), nm.rows = some rows →
      (mkNotMatchedResult nm).failed_rows = some (rows.take 100) ∧
      (rows.take 100).length ≤ 100 ∧
      (mkNotMatchedResult nm).failed_row_count = some nm.count) ∧
    ((mkDuplicatesResult
        { count := 150, rows := some (List.replicate 150 ([] : Row)) }).failed_row_count =
        some 150 ∧
      ((mkDuplicatesResult
        { count := 150, rows := some (List.replicate 150 ([] : Row)) }).failed_rows.getD
          []).length = 100) := by
  refine ⟨?_, ?_, ?_, by decide⟩
  · intro d rows h
    refine ⟨by simp [mkDuplicatesResult, h], ?_, rfl⟩
    simp [List.length_take]
  · intro src info rows h
    refine ⟨by simp [mkUniqueResult, h], ?_, rfl⟩
    simp [List.length_take]
  · intro nm rows h
    refine ⟨by simp [mkNotMatchedResult, h], ?_, rfl⟩
    simp [List.length_take]

/-- C10 witness: a duplicates facet with 3 backend rows is carried whole
(3 ≤ 100) with `failed_row_count = 3`. -/
theorem synthesized_results_row_cap_witness :
    ({ count := 3, rows := some [([] : Row)] } : RowsInfo).rows = some [([] : Row)] ∧
    ((mkDuplicatesResult { count := 3, rows := some [([] : Row)] }).failed_rows =
        some ([([] : Row)].take 100) ∧
      ([([] : Row)].take 100).length ≤ 100 ∧
      (mkDuplicatesResult { count := 3, rows := some [([] : Row)] }).failed_row_count =
        some 3) :=
  ⟨rfl, synthesized_results_row_cap.1 { count := 3, rows := some [([] : Row)] } [([] : Row)] rfl⟩
